import Mathlib

/-!
Verification development for the TalentScout hiring-assistant repository.

The Lean definitions below are a shallow embedding of the Python source:

* `utils.py` — `extract_tech_keywords`, `extract_skills_and_role_from_text`
  (skill detection, role inference, email inference);
* `main.py` — `validate_email`, `validate_phone`, the "Candidate Form"
  handler, the "Resume Info Confirmation" handler, and the
  `generate_questions` stage handler;
* `prompts.py` — `generate_questions_prompt`.

External collaborators (the `phonenumbers` library, the remote LLM call
`ask_gpt`, SMTP, SQLite) are modelled as parameters (oracles) or as explicit
effects in an effect list, so side-effect behaviour is observable in the
theorems.  Python strings are modelled as Lean `String` / `List Char`;
Python's `\w` character class is modelled at the ASCII level
(`[A-Za-z0-9_]`), which is the alphabet all claims range over.
-/

/-! ## Character classes used by the regexes in the source -/

/-- The `\w` character class (ASCII reading): letters, digits, underscore. -/
def isWordChar (c : Char) : Bool := c.isAlphanum || c == '_'

/-- The `[\w\.-]` character class of `validate_email` in `main.py`. -/
def isLocalChar (c : Char) : Bool := isWordChar c || c == '.' || c == '-'

/-- The `[a-zA-Z0-9_.+-]` class of the email-inference regex in `utils.py`. -/
def isEmailLocalChar (c : Char) : Bool :=
  c.isAlphanum || c == '_' || c == '.' || c == '+' || c == '-'

/-- The `[a-zA-Z0-9-]` class of the email-inference regex in `utils.py`. -/
def isEmailDomChar (c : Char) : Bool := c.isAlphanum || c == '-'

/-- The `[a-zA-Z0-9-.]` class of the email-inference regex in `utils.py`. -/
def isEmailSufChar (c : Char) : Bool := c.isAlphanum || c == '-' || c == '.'

/-! ## Substring containment (Python's `in` operator on strings) -/

/-- `containsSub h n = true` iff `n` occurs as a contiguous substring of `h`
(Python `n in h`). -/
def containsSub (h : List Char) (n : List Char) : Bool :=
  n.isPrefixOf h ||
    match h with
    | [] => false
    | _ :: t => containsSub t n

/-! ## `utils.py`: `extract_tech_keywords` -/

/-- The fixed vocabulary from `extract_tech_keywords` in `utils.py`. -/
def keywords : List String :=
  ["Python", "Java", "JavaScript", "React", "Node", "AWS", "Docker",
   "Kubernetes", "SQL", "Git"]

/-- `extract_tech_keywords` from `utils.py`:
`found = [kw for kw in keywords if kw.lower() in text.lower()]`,
then `list(set(found))`.  Python's `list(set(...))` dedupes with an
unspecified order; it is modelled by `List.dedup` (the claims about this
function are order-insensitive). -/
def extract_tech_keywords (text : String) : List String :=
  let found := keywords.filter
    (fun kw => containsSub (text.data.map Char.toLower) (kw.data.map Char.toLower))
  found.dedup

/-! ## `utils.py`: role inference -/

/-- The alternatives of the role regex
`(developer|engineer|manager|analyst|architect)` in `utils.py`, in pattern
order. -/
def roleWords : List (List Char) :=
  ["developer".data, "engineer".data, "manager".data, "analyst".data,
   "architect".data]

/-- Leftmost case-insensitive search (`re.search(..., re.IGNORECASE)`): scan
the start positions left to right; at each position try the alternatives in
pattern order; on a hit return the matched slice of the original text.
No two alternatives can match at the same position (none is a prefix of
another), so the alternative-order only mirrors the engine faithfully. -/
def searchRoleAux : List Char → Option (List Char)
  | [] => none
  | c :: cs =>
    match roleWords.find? (fun w => w.isPrefixOf ((c :: cs).map Char.toLower)) with
    | some w => some ((c :: cs).take w.length)
    | none => searchRoleAux cs

/-- Python `str.title()` restricted to a single alphabetic word (which is the
only shape `role_match.group(0)` can have): first letter upper-cased, the
rest lower-cased. -/
def titleWord : List Char → List Char
  | [] => []
  | c :: cs => c.toUpper :: cs.map Char.toLower

/-! ## `utils.py`: email inference -/

/-- Anchored attempt of the regex `[a-zA-Z0-9_.+-]+@[a-zA-Z0-9-]+\.[a-zA-Z0-9-.]+`
at the head of `l`.  Each `+` is greedy; because `@` is not in the first
class and `.` is not in the second, backtracking can never shorten a run, so
the greedy reading is exact. -/
def emailMatchAt (l : List Char) : Option (List Char) :=
  let loc := l.takeWhile isEmailLocalChar
  match l.dropWhile isEmailLocalChar with
  | '@' :: r2 =>
    if loc.isEmpty then none
    else
      let dom := r2.takeWhile isEmailDomChar
      match r2.dropWhile isEmailDomChar with
      | '.' :: r4 =>
        if dom.isEmpty then none
        else
          let suf := r4.takeWhile isEmailSufChar
          if suf.isEmpty then none
          else some (loc ++ '@' :: (dom ++ '.' :: suf))
      | _ => none
  | _ => none

/-- `re.search` for the email regex: leftmost match wins. -/
def searchEmail : List Char → Option (List Char)
  | [] => none
  | c :: cs =>
    match emailMatchAt (c :: cs) with
    | some m => some m
    | none => searchEmail cs

/-- The role computation of `extract_skills_and_role_from_text`:
`role_match.group(0).title() if role_match else "Software Engineer"`. -/
def inferRole (l : List Char) : String :=
  match searchRoleAux l with
  | some m => String.mk (titleWord m)
  | none => "Software Engineer"

/-- The email computation of `extract_skills_and_role_from_text`:
`email_match.group(0) if email_match else ""`. -/
def inferEmail (l : List Char) : String :=
  match searchEmail l with
  | some m => String.mk m
  | none => ""

/-- `extract_skills_and_role_from_text` from `utils.py`: returns
`(skills, role, extracted_email)`; the role falls back to
`"Software Engineer"` when the role regex finds nothing, the email falls
back to `""`. -/
def extract_skills_and_role_from_text (text : String) :
    List String × String × String :=
  let skills := extract_tech_keywords text
  let role : String := inferRole text.data
  let extracted_email : String := inferEmail text.data
  (skills, role, extracted_email)

/-! ## `main.py`: `validate_email` -/

/-- The part of the regex after `@`: `[\w\.-]+\.\w+` matched against all of
`r`.  Operationally: the longest word-character suffix must be non-empty,
preceded by a literal `'.'`, and the part before that dot must be a
non-empty run of `[\w\.-]` characters. -/
def domainOk (r : List Char) : Bool :=
  match r.reverse.dropWhile isWordChar with
  | x :: midRev =>
    x == '.' && !(r.reverse.takeWhile isWordChar).isEmpty && !midRev.isEmpty &&
      midRev.all isLocalChar
  | [] => false

/-- Full match of `[\w\.-]+@[\w\.-]+\.\w+` against `l`: a non-empty greedy
run of `[\w\.-]` characters, a literal `'@'` (not in the class, so the run
is forced maximal), then `domainOk` on the remainder. -/
def emailCore (l : List Char) : Bool :=
  match l.dropWhile isLocalChar with
  | x :: r => x == '@' && !(l.takeWhile isLocalChar).isEmpty && domainOk r
  | [] => false

/-- `validate_email` from `main.py`:
`re.match(r"^[\w\.-]+@[\w\.-]+\.\w+$", email) is not None`.
Python's `$` (without `re.MULTILINE`) matches at the end of the string or
just before a single newline at the end, so the pattern also accepts a
matching string followed by one trailing `'\n'`. -/
def validate_email (email : String) : Bool :=
  emailCore email.data ||
    (match email.data.reverse with
     | x :: restRev => x == '\n' && emailCore restRev.reverse
     | [] => false)

/-- The `local@domain.tld` shape exactly as §4.3 of the spec words it: one or
more word/dot/dash characters, `'@'`, one or more word/dot/dash characters,
`'.'`, one or more word characters.  Stated independently of the matcher so
the matcher can be compared against it. -/
def emailShape (l : List Char) : Prop :=
  ∃ L M T : List Char,
    l = L ++ '@' :: (M ++ '.' :: T) ∧
    L ≠ [] ∧ L.all isLocalChar = true ∧
    M ≠ [] ∧ M.all isLocalChar = true ∧
    T ≠ [] ∧ T.all isWordChar = true

/-! ## `main.py`: `validate_phone` -/

/-- `validate_phone` from `main.py`.  The `phonenumbers` library is external,
so `phonenumbers.parse` is an oracle returning either a parsed number or the
`NumberParseException` it is documented to raise (modelled by `Except.error`),
and `phonenumbers.is_valid_number` is an oracle predicate.  The function's
own result is `Except E Bool`: `Except.error` would mean an exception
escaping to the caller, `Except.ok` a normal boolean return.  The
`try/except NumberParseException` of the source is the match below. -/
def validate_phone {N E : Type} (parse : String → String → Except E N)
    (is_valid_number : N → Bool) (phone : String)
    (country_code : String := "US") : Except E Bool :=
  match parse phone country_code with
  | Except.ok number => Except.ok (is_valid_number number)
  | Except.error _ => Except.ok false

/-! ## `prompts.py`: `generate_questions_prompt` -/

/-- `generate_questions_prompt` from `prompts.py` (the f-string reproduced
verbatim). -/
def generate_questions_prompt (skills : List String) (role : String) : String :=
  let skill_string := ", ".intercalate skills
  "\nYou are an AI technical interviewer.\n\nGenerate **10 technical interview questions** for a candidate applying for the role of **"
    ++ role ++ "** with the following skills: " ++ skill_string
    ++ ".\n\nFor each question, also provide a **detailed, accurate answer**. Format your response exactly like this:\n\nQ1: <question 1>  \nA1: <answer 1>\n\nQ2: <question 2>  \nA2: <answer 2>\n\n...and so on up to Q10.\n"

/-! ## `main.py`: session data model -/

/-- The values `st.session_state.stage` takes in `main.py`. -/
inductive Stage where
  | info_gathering
  | generate_questions
  | endStage
deriving DecidableEq, Repr

/-- The candidate dict built by both form handlers in `main.py` (keys
`name, email, phone, exp, position, location, country, tech_stack, consent,
timestamp`).  `consent` is stored as the string `"yes"` by both handlers. -/
structure Candidate where
  name : String
  email : String
  phone : String
  exp : Nat
  position : String
  location : String
  country : String
  tech_stack : String
  consent : String
  timestamp : String
deriving DecidableEq, Repr

/-- `st.session_state`: `none` models a key that is not present yet. -/
structure SessionState where
  stage : Option Stage
  candidate_info : Option Candidate
  generated_questions : Option String
deriving DecidableEq, Repr

/-- The fields of the manual "Candidate Form" plus its consent checkbox. -/
structure FormInput where
  name : String
  email : String
  phone : String
  exp : Nat
  position : String
  location : String
  country : String
  tech_stack : String
  consent : Bool
deriving DecidableEq, Repr

/-- Observable side effects of a script run: Streamlit display calls,
the SQLite insert `save_candidate_data`, each invocation of the external
generator `ask_gpt`, the SMTP send, PDF rendering, `st.stop()` and
`st.rerun()`. -/
inductive Effect where
  | warn (msg : String)
  | errorMsg (msg : String)
  | success (msg : String)
  | write (text : String)
  | subheader (text : String)
  | save (c : Candidate)
  | callGenerator (prompt : String)
  | sendEmail (toAddr : String) (questions : String) (name : String)
  | renderPdf (questions : String)
  | stop
  | rerun
deriving DecidableEq, Repr

/-- Which (at most one) button was clicked on this run of the
`generate_questions` block. -/
inductive Button where
  | idle
  | regenerate
  | emailMe
  | finish
deriving DecidableEq, Repr

/-- Outcome of one run of a script block: the session state when the block
finished (or when an exception was raised — assignments made before the
raise persist, as `st.session_state` is mutated in place), the effects
emitted so far, and `raised = some msg` when a Python exception propagated
out of the block uncaught. -/
structure RunResult where
  state : SessionState
  effects : List Effect
  raised : Option String
deriving DecidableEq, Repr

/-! ## `main.py`: form handlers -/

/-- The candidate dict built in the success branch of the manual
"Candidate Form" handler (`main.py` lines 248-253). -/
def submittedRecord (i : FormInput) (now : String) : Candidate :=
  { name := i.name, email := i.email, phone := i.phone, exp := i.exp,
    position := i.position, location := i.location, country := i.country,
    tech_stack := i.tech_stack, consent := "yes", timestamp := now }

/-- The manual "Candidate Form" handler (`main.py` lines 238-256).
`phoneOk` is `validate_phone` with its external oracles already applied
(it is called on `phone` and `country.upper()`); `now` is the
`datetime.now()` timestamp string. -/
def candidate_form_submit (phoneOk : String → String → Bool)
    (st : SessionState) (i : FormInput) (now : String) :
    SessionState × List Effect :=
  if i.name.isEmpty || i.email.isEmpty || i.phone.isEmpty ||
      i.position.isEmpty || i.location.isEmpty || i.tech_stack.isEmpty then
    (st, [Effect.warn "Please fill all required fields."])
  else if !(validate_email i.email) then
    (st, [Effect.warn "Enter a valid email."])
  else if !(phoneOk i.phone i.country.toUpper) then
    (st, [Effect.warn "Enter a valid phone number for your country."])
  else if !i.consent then
    (st, [Effect.warn "GDPR consent is required."])
  else
    let candidate := submittedRecord i now
    ({ st with candidate_info := some candidate,
               stage := some Stage.generate_questions },
     [Effect.save candidate])

/-- The candidate dict built by the "Resume Info Confirmation" handler
(`main.py` lines 213-219): name/phone/location/country empty, `exp = 0`,
tech stack is the detected skills joined by `", "`. -/
def resumeRecord (skills : List String) (manual_role manual_email : String)
    (now : String) : Candidate :=
  { name := "", email := manual_email, phone := "", exp := 0,
    position := manual_role, location := "", country := "",
    tech_stack := ", ".intercalate skills, consent := "yes",
    timestamp := now }

/-- The "Resume Info Confirmation" handler (`main.py` lines 207-220):
consent check, then email validation, then store the record in the session
and move to the `generate_questions` stage.  No `save_candidate_data` call
occurs anywhere on this path. -/
def resume_confirm_submit (st : SessionState) (skills : List String)
    (manual_role manual_email : String) (manual_consent : Bool)
    (now : String) : SessionState × List Effect :=
  if !manual_consent then
    (st, [Effect.warn "❌ GDPR consent required."])
  else if !(validate_email manual_email) then
    (st, [Effect.warn "❌ Invalid email."])
  else
    ({ st with
        candidate_info := some (resumeRecord skills manual_role manual_email now),
        stage := some Stage.generate_questions },
     [])

/-! ## `main.py`: the `generate_questions` stage block -/

/-- The prompt the stage block builds for candidate data `data`
(`main.py` lines 261-262). -/
def promptOf (data : Candidate) : String :=
  generate_questions_prompt (extract_tech_keywords data.tech_stack) data.position

/-- The part of the `generate_questions` block after `questions_text` is
read (display of the questions and the four columns, `main.py` lines
271-295).  `qs` is the cached questions text, `st` already holds it.  The
`Regenerate` branch calls the generator with NO try/except: on failure the
exception propagates (`raised`); on success it overwrites the cache and
calls `st.rerun()`, which aborts the rest of the run.  `generate_pdf_bytes`
(column 3) runs on every run that gets past column 1. -/
def renderQuestions (gptCall : String → Except String String) (sendOk : Bool)
    (st : SessionState) (click : Button) (prompt : String) (data : Candidate)
    (acc : List Effect) (qs : String) : RunResult :=
  let acc1 := acc ++ [Effect.success "Here are your interview questions:",
                      Effect.write qs]
  if click = Button.regenerate then
    match gptCall prompt with
    | Except.error e =>
      { state := st, effects := acc1 ++ [Effect.callGenerator prompt],
        raised := some e }
    | Except.ok fresh =>
      { state := { st with generated_questions := some fresh },
        effects := acc1 ++ [Effect.callGenerator prompt, Effect.rerun],
        raised := none }
  else
    let acc2 := acc1 ++
      (if click = Button.emailMe then
        [Effect.sendEmail data.email qs data.name] ++
          (if sendOk then [Effect.success "Email sent successfully!"] else [])
      else [])
    let acc3 := acc2 ++ [Effect.renderPdf qs]
    if click = Button.finish then
      { state := { st with stage := some Stage.endStage },
        effects := acc3 ++ [Effect.success "Thank you! We'll be in touch."],
        raised := none }
    else
      { state := st, effects := acc3, raised := none }

/-- One run of the `generate_questions` stage block (`main.py` lines
258-295).  `gptCall` is the external `ask_gpt` (its failure value carries
the exception's message); `sendOk` is the boolean returned by the external
`send_email_with_questions`.  On first entry (`generated_questions` not in
the session) the generator is called inside `try/except`: a failure is
reported with `st.error` and `st.stop()` (no exception escapes, nothing is
cached, the stage is untouched). -/
def generate_questions_stage (gptCall : String → Except String String)
    (sendOk : Bool) (st : SessionState) (click : Button) : RunResult :=
  let eff0 : List Effect := [Effect.subheader "Generating Questions..."]
  match st.candidate_info with
  | none =>
    { state := st, effects := eff0,
      raised := some "AttributeError: candidate_info" }
  | some data =>
    let prompt := promptOf data
    match st.generated_questions with
    | none =>
      match gptCall prompt with
      | Except.error e =>
        { state := st,
          effects := eff0 ++ [Effect.callGenerator prompt,
            Effect.errorMsg ("Failed to generate questions: " ++ e),
            Effect.stop],
          raised := none }
      | Except.ok qs =>
        renderQuestions gptCall sendOk
          { st with generated_questions := some qs } click prompt data
          (eff0 ++ [Effect.callGenerator prompt]) qs
    | some qs =>
      renderQuestions gptCall sendOk st click prompt data eff0 qs

/-! ## Effect observers -/

/-- Is this effect a `save_candidate_data` call? -/
def isSaveEff : Effect → Bool
  | Effect.save _ => true
  | _ => false

/-- Is this effect an invocation of the external generator? -/
def isGenCallEff : Effect → Bool
  | Effect.callGenerator _ => true
  | _ => false

/-- Is this effect an `st.error` message? -/
def isErrorEff : Effect → Bool
  | Effect.errorMsg _ => true
  | _ => false

/-- Number of generator invocations recorded in an effect list. -/
def countGen (effs : List Effect) : Nat := effs.countP isGenCallEff

/-- Whether an effect list contains a `save_candidate_data` call. -/
def hasSave (effs : List Effect) : Bool := effs.any isSaveEff

/-- Number of `st.error` messages recorded in an effect list. -/
def countErrors (effs : List Effect) : Nat := effs.countP isErrorEff

/-- Number of `save_candidate_data` calls recorded in an effect list. -/
def countSaves (effs : List Effect) : Nat := effs.countP isSaveEff

/-! ## Concrete sample inputs used by witness theorems -/

/-- A fully valid manual form input. -/
def formJane : FormInput :=
  { name := "Jane Doe", email := "jane@example.com", phone := "+14155552671",
    exp := 5, position := "Developer", location := "NYC", country := "us",
    tech_stack := "Python, React", consent := true }

/-- The same form with the consent box unchecked. -/
def formNoConsent : FormInput := { formJane with consent := false }

/-- A fresh session in the `info_gathering` stage. -/
def stInfo : SessionState :=
  { stage := some Stage.info_gathering, candidate_info := none,
    generated_questions := none }

/-- A sample candidate record. -/
def cand1 : Candidate :=
  { name := "n", email := "e@x.co", phone := "1", exp := 1,
    position := "Engineer", location := "L", country := "US",
    tech_stack := "Python", consent := "yes", timestamp := "t" }

/-- A session entering `generate_questions` with no cached questions. -/
def stFresh : SessionState :=
  { stage := some Stage.generate_questions, candidate_info := some cand1,
    generated_questions := none }

/-- A session in `generate_questions` with cached questions `"OLD"`. -/
def stCached : SessionState :=
  { stFresh with generated_questions := some "OLD" }

/-! ## List helper lemmas -/

/-- `takeWhile` stops exactly at the first failing element. -/
theorem takeWhile_append_of_all {α : Type} (p : α → Bool) (L : List α)
    (x : α) (R : List α) (hL : L.all p = true) (hx : p x = false) :
    (L ++ x :: R).takeWhile p = L := by
  induction L with
  | nil => simp [List.takeWhile_cons, hx]
  | cons a t ih =>
    simp only [List.all_cons, Bool.and_eq_true] at hL
    simp [List.takeWhile_cons, hL.1, ih hL.2]

/-- `dropWhile` drops exactly the leading all-`p` run. -/
theorem dropWhile_append_of_all {α : Type} (p : α → Bool) (L : List α)
    (x : α) (R : List α) (hL : L.all p = true) (hx : p x = false) :
    (L ++ x :: R).dropWhile p = x :: R := by
  induction L with
  | nil => simp [List.dropWhile_cons, hx]
  | cons a t ih =>
    simp only [List.all_cons, Bool.and_eq_true] at hL
    simp [List.dropWhile_cons, hL.1, ih hL.2]

/-! ## Characterization of `validate_email` -/

/-- `domainOk` decides exactly the `[\w\.-]+\.\w+` decompositions. -/
theorem domainOk_iff (r : List Char) :
    domainOk r = true ↔
      ∃ M T : List Char, r = M ++ '.' :: T ∧
        M ≠ [] ∧ M.all isLocalChar = true ∧
        T ≠ [] ∧ T.all isWordChar = true := by
  constructor
  · intro h
    unfold domainOk at h
    cases hdw : r.reverse.dropWhile isWordChar with
    | nil => rw [hdw] at h; simp at h
    | cons x midRev =>
      rw [hdw] at h
      simp only [Bool.and_eq_true, beq_iff_eq, Bool.not_eq_true',
        List.isEmpty_eq_false, List.isEmpty_iff] at h
      obtain ⟨⟨⟨hx, htw⟩, hmid⟩, hall⟩ := h
      have hsplit : r.reverse.takeWhile isWordChar ++ '.' :: midRev = r.reverse := by
        rw [← hx, ← hdw]
        exact List.takeWhile_append_dropWhile isWordChar r.reverse
      have hr : r = midRev.reverse ++ '.' :: (r.reverse.takeWhile isWordChar).reverse := by
        calc r = r.reverse.reverse := (List.reverse_reverse r).symm
          _ = (r.reverse.takeWhile isWordChar ++ '.' :: midRev).reverse := by rw [hsplit]
          _ = midRev.reverse ++ '.' :: (r.reverse.takeWhile isWordChar).reverse := by
              rw [List.reverse_append, List.reverse_cons, List.append_assoc]; simp
      refine ⟨midRev.reverse, (r.reverse.takeWhile isWordChar).reverse, hr,
        ?_, ?_, ?_, ?_⟩
      · simpa [List.reverse_eq_nil_iff] using hmid
      · simpa [List.all_reverse] using hall
      · simpa [List.reverse_eq_nil_iff] using htw
      · rw [List.all_reverse]
        exact List.all_takeWhile
  · rintro ⟨M, T, rfl, hM, hMall, hT, hTall⟩
    have hrev : (M ++ '.' :: T).reverse = T.reverse ++ '.' :: M.reverse := by
      rw [List.reverse_append, List.reverse_cons, List.append_assoc]; simp
    have hTrevAll : T.reverse.all isWordChar = true := by
      simpa [List.all_reverse] using hTall
    have hdot : isWordChar '.' = false := by decide
    unfold domainOk
    rw [hrev, dropWhile_append_of_all _ _ _ _ hTrevAll hdot,
        takeWhile_append_of_all _ _ _ _ hTrevAll hdot]
    simp [List.isEmpty_iff, List.reverse_eq_nil_iff, hM, hT, List.all_reverse, hMall]

/-- `emailCore` decides exactly the full-match decompositions of
`[\w\.-]+@[\w\.-]+\.\w+`, i.e. the spec's `local@domain.tld` shape. -/
theorem emailCore_iff (l : List Char) : emailCore l = true ↔ emailShape l := by
  constructor
  · intro h
    unfold emailCore at h
    cases hdw : l.dropWhile isLocalChar with
    | nil => rw [hdw] at h; simp at h
    | cons x r =>
      rw [hdw] at h
      simp only [Bool.and_eq_true, beq_iff_eq, Bool.not_eq_true',
        List.isEmpty_eq_false] at h
      obtain ⟨⟨hx, htw⟩, hdom⟩ := h
      obtain ⟨M, T, hr, hM, hMall, hT, hTall⟩ := (domainOk_iff r).mp hdom
      refine ⟨l.takeWhile isLocalChar, M, T, ?_, htw, List.all_takeWhile,
        hM, hMall, hT, hTall⟩
      have hsplit : l.takeWhile isLocalChar ++ l.dropWhile isLocalChar = l :=
        List.takeWhile_append_dropWhile isLocalChar l
      rw [hdw, hx, hr] at hsplit
      exact hsplit.symm
  · rintro ⟨L, M, T, rfl, hL, hLall, hM, hMall, hT, hTall⟩
    have hat : isLocalChar '@' = false := by decide
    unfold emailCore
    rw [dropWhile_append_of_all _ _ _ _ hLall hat,
        takeWhile_append_of_all _ _ _ _ hLall hat]
    simp only [beq_self_eq_true, Bool.true_and, Bool.and_eq_true,
      Bool.not_eq_true', List.isEmpty_eq_false]
    exact ⟨hL, (domainOk_iff (M ++ '.' :: T)).mpr ⟨M, T, rfl, hM, hMall, hT, hTall⟩⟩

/-- Claim C7 (amended): the email validator accepts exactly the strings of
the `local@domain.tld` shape — one or more word/dot/dash characters, `'@'`,
one or more word/dot/dash characters, `'.'`, one or more word characters —
plus (through Python's `$` semantics, which forces the amendment) exactly
those strings consisting of such a shape followed by a single trailing
newline; every other string is rejected. -/
theorem validate_email_iff (s : String) :
    validate_email s = true ↔
      (emailShape s.data ∨
        ∃ t : List Char, s.data = t ++ ['\n'] ∧ emailShape t) := by
  unfold validate_email
  rw [Bool.or_eq_true]
  apply or_congr (emailCore_iff s.data)
  cases hrev : s.data.reverse with
  | nil =>
    have hnil : s.data = [] := by simpa [List.reverse_eq_nil_iff] using hrev
    simp only [hnil]
    constructor
    · intro h; exact absurd h (by simp)
    · rintro ⟨t, ht, -⟩
      exact absurd (congrArg List.length ht) (by simp)
  | cons x restRev =>
    have hdata : s.data = restRev.reverse ++ [x] := by
      have h2 := congrArg List.reverse hrev
      simpa using h2
    simp only [Bool.and_eq_true, beq_iff_eq]
    constructor
    · rintro ⟨hx, hcore⟩
      exact ⟨restRev.reverse, by rw [hdata, hx], (emailCore_iff _).mp hcore⟩
    · rintro ⟨t, ht, hshape⟩
      have hrt := congrArg List.reverse ht
      rw [hrev] at hrt
      simp at hrt
      obtain ⟨hx1, hx2⟩ := hrt
      refine ⟨hx1, (emailCore_iff _).mpr ?_⟩
      rw [hx2, List.reverse_reverse]
      exact hshape

/-- A string of the `local@domain.tld` shape ends in a word character. -/
theorem emailShape_getLast (l : List Char) (h : emailShape l) :
    ∃ c, l.getLast? = some c ∧ isWordChar c = true := by
  obtain ⟨L, M, T, rfl, -, -, -, -, hT, hTall⟩ := h
  have hc : T.getLast? = some (T.getLast hT) := List.getLast?_eq_getLast T hT
  refine ⟨T.getLast hT, ?_, ?_⟩
  · simp [List.getLast?_append, List.getLast?_cons, hc]
  · exact List.all_eq_true.mp hTall _ (List.getLast_mem hT)

/-! ## Characterization of skill detection -/

/-- `containsSub` decides substring containment (`List.IsInfix`). -/
theorem containsSub_iff (h n : List Char) : containsSub h n = true ↔ n <:+: h := by
  induction h with
  | nil =>
    simp [containsSub, List.isPrefixOf_iff_prefix, List.prefix_nil, List.infix_nil]
  | cons a t ih =>
    rw [containsSub, Bool.or_eq_true, List.isPrefixOf_iff_prefix, ih,
      List.infix_cons_iff]

/-! ## Lemmas about role inference -/

/-- `Char.ofNat` inverts `Char.toNat` on valid code points. -/
theorem charToNat_ofNat (n : Nat) (h : Nat.isValidChar n) :
    (Char.ofNat n).toNat = n := by
  unfold Char.ofNat
  rw [dif_pos h]
  simp [Char.ofNatAux, Char.toNat, UInt32.toNat, UInt32.ofNatCore]

/-- Lower-casing first does not change the result of upper-casing. -/
theorem toUpper_toLower (c : Char) : c.toLower.toUpper = c.toUpper := by
  unfold Char.toLower Char.toUpper
  by_cases h : c.toNat ≥ 65 ∧ c.toNat ≤ 90
  · rw [if_pos h]
    have hv : Nat.isValidChar (c.toNat + 32) := Or.inl (by omega)
    have ht : (Char.ofNat (c.toNat + 32)).toNat = c.toNat + 32 :=
      charToNat_ofNat _ hv
    rw [ht]
    rw [if_pos (by omega : c.toNat + 32 ≥ 97 ∧ c.toNat + 32 ≤ 122)]
    rw [if_neg (by omega : ¬(c.toNat ≥ 97 ∧ c.toNat ≤ 122))]
    have h32 : c.toNat + 32 - 32 = c.toNat := by omega
    rw [h32, Char.ofNat_toNat]
  · rw [if_neg h]

/-- `titleWord` depends only on the lower-cased form of its argument. -/
theorem titleWord_congr (m1 m2 : List Char)
    (h : m1.map Char.toLower = m2.map Char.toLower) :
    titleWord m1 = titleWord m2 := by
  cases m1 with
  | nil =>
    cases m2 with
    | nil => rfl
    | cons b bs => simp at h
  | cons a as =>
    cases m2 with
    | nil => simp at h
    | cons b bs =>
      simp only [List.map_cons, List.cons.injEq] at h
      obtain ⟨h1, h2⟩ := h
      have hu : a.toUpper = b.toUpper := by
        rw [← toUpper_toLower a, h1, toUpper_toLower b]
      show a.toUpper :: as.map Char.toLower = b.toUpper :: bs.map Char.toLower
      rw [hu, h2]

/-- The title-cased role found by `searchRoleAux` depends only on the
lower-cased form of the text. -/
theorem searchRole_congr (l1 : List Char) : ∀ l2 : List Char,
    l1.map Char.toLower = l2.map Char.toLower →
    Option.map titleWord (searchRoleAux l1) =
      Option.map titleWord (searchRoleAux l2) := by
  induction l1 with
  | nil =>
    intro l2 h
    have : l2 = [] := by
      have h2 := h.symm
      simpa [List.map_eq_nil_iff] using h2
    rw [this]
  | cons a as ih =>
    intro l2 h
    cases l2 with
    | nil => simp at h
    | cons b bs =>
      rw [searchRoleAux, searchRoleAux, h]
      cases hfind : List.find?
          (fun w => w.isPrefixOf ((b :: bs).map Char.toLower)) roleWords with
      | none =>
        have h3 : a.toLower = b.toLower ∧
            as.map Char.toLower = bs.map Char.toLower := by simpa using h
        exact ih bs h3.2
      | some w =>
        simp only [Option.map_some']
        congr 1
        apply titleWord_congr
        rw [List.map_take, List.map_take, h]

/-- No word of `roleWords` is empty. -/
theorem roleWords_ne_nil : ∀ w ∈ roleWords, w ≠ [] := by decide

/-- A successful role search returns a non-empty matched slice. -/
theorem searchRoleAux_some_ne_nil (l : List Char) : ∀ m : List Char,
    searchRoleAux l = some m → m ≠ [] := by
  induction l with
  | nil => intro m h; simp [searchRoleAux] at h
  | cons c cs ih =>
    intro m h
    rw [searchRoleAux] at h
    cases hfind : List.find?
        (fun w => w.isPrefixOf ((c :: cs).map Char.toLower)) roleWords with
    | none => rw [hfind] at h; exact ih m h
    | some w =>
      rw [hfind] at h
      have hw : w ≠ [] := roleWords_ne_nil w (List.mem_of_find?_eq_some hfind)
      obtain ⟨m, rfl⟩ : ∃ m0, m0 = m := ⟨m, rfl⟩
      cases w with
      | nil => exact absurd rfl hw
      | cons x xs =>
        have : (c :: cs).take (x :: xs).length = m := by
          simpa using h
        rw [← this, List.length_cons, List.take_succ_cons]
        simp

/-- `titleWord` of a non-empty word is non-empty. -/
theorem titleWord_ne_nil (m : List Char) (h : m ≠ []) : titleWord m ≠ [] := by
  cases m with
  | nil => exact absurd rfl h
  | cons a as => simp [titleWord]

/-- If no role word occurs (case-insensitively) in the text, the search
fails. -/
theorem searchRoleAux_none_of_no_occurrence (l : List Char)
    (h : ∀ w ∈ roleWords, ¬ w <:+: l.map Char.toLower) :
    searchRoleAux l = none := by
  induction l with
  | nil => rfl
  | cons c cs ih =>
    rw [searchRoleAux]
    cases hfind : List.find?
        (fun w => w.isPrefixOf ((c :: cs).map Char.toLower)) roleWords with
    | some w =>
      exfalso
      have hmem := List.mem_of_find?_eq_some hfind
      have hpre := List.find?_some hfind
      simp only [List.isPrefixOf_iff_prefix] at hpre
      exact h w hmem hpre.isInfix
    | none =>
      apply ih
      intro w hw hinf
      apply h w hw
      rw [List.map_cons]
      exact List.infix_cons hinf

/-- Counterexample to claim C7 as stated: `"a@b.c\n"` is not of the
`local@domain.tld` shape (it ends in a newline, not a word character), yet
`validate_email` accepts it, because Python's `$` also matches just before
a trailing newline at the end of the string. -/
theorem validate_email_newline_counterexample :
    validate_email "a@b.c\n" = true ∧ ¬ emailShape "a@b.c\n".data := by
  constructor
  · decide
  · intro h
    obtain ⟨c, hc, hw⟩ := emailShape_getLast _ h
    have h2 : List.getLast? "a@b.c\n".data = some '\n' := by decide
    rw [h2] at hc
    have h3 : c = '\n' := (Option.some.inj hc).symm
    rw [h3] at hw
    exact absurd hw (by decide)

/-- Claim C5: skill detection returns exactly the set of terms of the fixed
ten-term vocabulary whose lower-cased form occurs as a substring of the
lower-cased input, with no duplicates; as a pure total Lean function it
always returns (a possibly empty list) and two calls on the same text give
the same result. -/
theorem skill_detection_characterization (text kw : String) :
    (kw ∈ extract_tech_keywords text ↔
      kw ∈ keywords ∧
        (kw.data.map Char.toLower) <:+: (text.data.map Char.toLower))
    ∧ (extract_tech_keywords text).Nodup
    ∧ keywords.length = 10
    ∧ extract_tech_keywords text = extract_tech_keywords text := by
  refine ⟨?_, ?_, rfl, rfl⟩
  · simp only [extract_tech_keywords, List.mem_dedup, List.mem_filter,
      containsSub_iff]
  · show (List.dedup _).Nodup
    exact List.nodup_dedup _

/-- Claim C6: role inference is case-invariant — for texts that differ only
in letter case (equal after lower-casing), the inferred role component of
`extract_skills_and_role_from_text` is identical, since the regex search is
case-insensitive and the matched word is title-cased. -/
theorem role_inference_case_invariant (s1 s2 : String)
    (h : s1.data.map Char.toLower = s2.data.map Char.toLower) :
    (extract_skills_and_role_from_text s1).2.1 =
      (extract_skills_and_role_from_text s2).2.1 := by
  show inferRole s1.data = inferRole s2.data
  have hopt := searchRole_congr s1.data s2.data h
  unfold inferRole
  cases h1 : searchRoleAux s1.data with
  | none =>
    cases h2 : searchRoleAux s2.data with
    | none => rfl
    | some m => rw [h1, h2] at hopt; simp at hopt
  | some m1 =>
    cases h2 : searchRoleAux s2.data with
    | none => rw [h1, h2] at hopt; simp at hopt
    | some m2 =>
      rw [h1, h2] at hopt
      simp only [Option.map_some', Option.some.injEq] at hopt
      show String.mk (titleWord m1) = String.mk (titleWord m2)
      rw [hopt]

/-- Witness for C6 at the spec's own example: `"Senior Software ENGINEER"`
and its lower-cased twin infer the same role, namely `"Engineer"`. -/
theorem role_inference_case_invariant_witness :
    ("Senior Software ENGINEER".data.map Char.toLower =
      "senior software engineer".data.map Char.toLower)
    ∧ (extract_skills_and_role_from_text "Senior Software ENGINEER").2.1 =
        (extract_skills_and_role_from_text "senior software engineer").2.1
    ∧ (extract_skills_and_role_from_text "Senior Software ENGINEER").2.1 =
        "Engineer" :=
  ⟨by decide, role_inference_case_invariant _ _ (by decide), by decide⟩

/-- Claim C9: the role returned by `extract_skills_and_role_from_text` is
never empty; when no role keyword occurs (case-insensitively) in the text,
the default `"Software Engineer"` is substituted inside the function. -/
theorem role_never_absent (text : String) :
    (extract_skills_and_role_from_text text).2.1 ≠ "" ∧
    ((∀ w ∈ roleWords, ¬ (w <:+: text.data.map Char.toLower)) →
      (extract_skills_and_role_from_text text).2.1 = "Software Engineer") := by
  constructor
  · show inferRole text.data ≠ ""
    unfold inferRole
    cases hsr : searchRoleAux text.data with
    | none => decide
    | some m =>
      have hm := searchRoleAux_some_ne_nil text.data m hsr
      have ht := titleWord_ne_nil m hm
      intro hcon
      apply ht
      have hdata := congrArg String.data hcon
      simpa using hdata
  · intro h
    show inferRole text.data = "Software Engineer"
    unfold inferRole
    rw [searchRoleAux_none_of_no_occurrence text.data h]

/-- Witness for C9 at the concrete text `"hello"` (no role keyword): the
hypothesis holds and the role defaults to `"Software Engineer"`. -/
theorem role_never_absent_witness :
    (∀ w ∈ roleWords, ¬ (w <:+: "hello".data.map Char.toLower)) ∧
    (extract_skills_and_role_from_text "hello").2.1 = "Software Engineer" ∧
    (extract_skills_and_role_from_text "hello").2.1 ≠ "" :=
  ⟨by decide, (role_never_absent "hello").2 (by decide),
   (role_never_absent "hello").1⟩

/-! ## Claims about the form handlers -/

/-- A non-empty string has `isEmpty = false`. -/
theorem isEmpty_false_of_ne {s : String} (h : s ≠ "") : s.isEmpty = false := by
  rw [Bool.eq_false_iff]
  intro hc
  exact h ((String.isEmpty_iff s).mp hc)

/-- Claim C1: on every submission path, unless consent is given and the
email validates, the session state is left completely unchanged (in
particular the stage stays where it was, e.g. `info_gathering`) and no
`save_candidate_data` effect is emitted; the resume path never emits a
save effect at all. -/
theorem consent_and_valid_email_gate (phoneOk : String → String → Bool)
    (st : SessionState) (i : FormInput) (skills : List String)
    (role email : String) (consent : Bool) (now nowR : String) :
    (¬(i.consent = true ∧ validate_email i.email = true) →
      (candidate_form_submit phoneOk st i now).1 = st ∧
      hasSave (candidate_form_submit phoneOk st i now).2 = false) ∧
    (¬(consent = true ∧ validate_email email = true) →
      (resume_confirm_submit st skills role email consent nowR).1 = st) ∧
    hasSave (resume_confirm_submit st skills role email consent nowR).2 = false := by
  refine ⟨?_, ?_, ?_⟩
  · intro h
    unfold candidate_form_submit
    split
    · exact ⟨rfl, rfl⟩
    · split
      · exact ⟨rfl, rfl⟩
      · split
        · exact ⟨rfl, rfl⟩
        · split
          · exact ⟨rfl, rfl⟩
          · exfalso
            rename_i h1 h2 h3 h4
            exact h ⟨by simpa using h4, by simpa using h2⟩
  · intro h
    unfold resume_confirm_submit
    split
    · rfl
    · split
      · rfl
      · exfalso
        rename_i h1 h2
        exact h ⟨by simpa using h1, by simpa using h2⟩
  · unfold resume_confirm_submit
    split
    · rfl
    · split
      · rfl
      · rfl

/-- Witness for C1: a manual form with consent unchecked leaves the state
unchanged without saving, and a resume confirmation with an invalid email
leaves the state unchanged; the resume path emits no save. -/
theorem consent_and_valid_email_gate_witness :
    (¬(formNoConsent.consent = true ∧
        validate_email formNoConsent.email = true)) ∧
    (¬((true : Bool) = true ∧ validate_email "bad-email" = true)) ∧
    ((candidate_form_submit (fun _ _ => true) stInfo formNoConsent "t").1 = stInfo ∧
      hasSave (candidate_form_submit (fun _ _ => true) stInfo formNoConsent "t").2 = false) ∧
    ((resume_confirm_submit stInfo ["Python"] "Developer" "bad-email" true "t").1 = stInfo) ∧
    hasSave (resume_confirm_submit stInfo ["Python"] "Developer" "bad-email" true "t").2 = false :=
  ⟨by decide, by decide,
   (consent_and_valid_email_gate (fun _ _ => true) stInfo formNoConsent
      ["Python"] "Developer" "bad-email" true "t" "t").1 (by decide),
   (consent_and_valid_email_gate (fun _ _ => true) stInfo formNoConsent
      ["Python"] "Developer" "bad-email" true "t" "t").2.1 (by decide),
   (consent_and_valid_email_gate (fun _ _ => true) stInfo formNoConsent
      ["Python"] "Developer" "bad-email" true "t" "t").2.2⟩

/-- Claim C2: a manual form whose six required fields are non-empty, whose
email validates, whose phone validates for the (upper-cased) country, and
whose consent box is checked, transitions the session to the
`generate_questions` stage and emits exactly one save effect, carrying the
record built from exactly the submitted field values. -/
theorem manual_submit_valid_saves_once (phoneOk : String → String → Bool)
    (st : SessionState) (i : FormInput) (now : String)
    (hfields : i.name ≠ "" ∧ i.email ≠ "" ∧ i.phone ≠ "" ∧ i.position ≠ "" ∧
      i.location ≠ "" ∧ i.tech_stack ≠ "")
    (hemail : validate_email i.email = true)
    (hphone : phoneOk i.phone i.country.toUpper = true)
    (hconsent : i.consent = true) :
    candidate_form_submit phoneOk st i now =
      ({ st with candidate_info := some (submittedRecord i now),
                 stage := some Stage.generate_questions },
       [Effect.save (submittedRecord i now)]) ∧
    countSaves (candidate_form_submit phoneOk st i now).2 = 1 ∧
    (candidate_form_submit phoneOk st i now).1.stage =
      some Stage.generate_questions := by
  obtain ⟨h1, h2, h3, h4, h5, h6⟩ := hfields
  have hcond : (i.name.isEmpty || i.email.isEmpty || i.phone.isEmpty ||
      i.position.isEmpty || i.location.isEmpty || i.tech_stack.isEmpty) = false := by
    rw [isEmpty_false_of_ne h1, isEmpty_false_of_ne h2, isEmpty_false_of_ne h3,
      isEmpty_false_of_ne h4, isEmpty_false_of_ne h5, isEmpty_false_of_ne h6]
    rfl
  have hmain : candidate_form_submit phoneOk st i now =
      ({ st with candidate_info := some (submittedRecord i now),
                 stage := some Stage.generate_questions },
       [Effect.save (submittedRecord i now)]) := by
    unfold candidate_form_submit
    simp [hcond, hemail, hphone, hconsent]
  refine ⟨hmain, ?_, ?_⟩
  · rw [hmain]
    rfl
  · rw [hmain]

/-- Witness for C2 at a concrete fully valid submission. -/
theorem manual_submit_valid_saves_once_witness :
    (formJane.name ≠ "" ∧ formJane.email ≠ "" ∧ formJane.phone ≠ "" ∧
      formJane.position ≠ "" ∧ formJane.location ≠ "" ∧
      formJane.tech_stack ≠ "") ∧
    validate_email formJane.email = true ∧
    (fun _ _ => true) formJane.phone formJane.country.toUpper = true ∧
    formJane.consent = true ∧
    candidate_form_submit (fun _ _ => true) stInfo formJane "2026-10-12" =
      ({ stInfo with candidate_info := some (submittedRecord formJane "2026-10-12"),
                     stage := some Stage.generate_questions },
       [Effect.save (submittedRecord formJane "2026-10-12")]) :=
  ⟨by decide, by decide, rfl, rfl,
   (manual_submit_valid_saves_once (fun _ _ => true) stInfo formJane "2026-10-12"
      (by decide) (by decide) rfl rfl).1⟩

/-- Claim C8: `validate_phone` always returns a boolean normally — never an
escaping exception — for every behaviour of the external `phonenumbers`
oracles; it returns `false` whenever parsing raises `NumberParseException`
(invalid country code or unparseable string) and whenever the parsed number
is not valid for the region. -/
theorem validate_phone_no_exception {N E : Type}
    (parse : String → String → Except E N) (is_valid_number : N → Bool)
    (phone cc : String) :
    (∃ b : Bool, validate_phone parse is_valid_number phone cc = Except.ok b) ∧
    (∀ e : E, parse phone cc = Except.error e →
      validate_phone parse is_valid_number phone cc = Except.ok false) ∧
    (∀ n : N, parse phone cc = Except.ok n → is_valid_number n = false →
      validate_phone parse is_valid_number phone cc = Except.ok false) := by
  refine ⟨?_, ?_, ?_⟩
  · cases hp : parse phone cc with
    | ok n => exact ⟨is_valid_number n, by unfold validate_phone; rw [hp]⟩
    | error e => exact ⟨false, by unfold validate_phone; rw [hp]⟩
  · intro e he
    unfold validate_phone
    rw [he]
  · intro n hn hv
    unfold validate_phone
    rw [hn]
    show Except.ok (is_valid_number n) = Except.ok false
    rw [hv]

/-- Witness for C8: a parser that always raises `NumberParseException`
(e.g. an invalid two-letter country code) makes `validate_phone` return
`false` normally. -/
theorem validate_phone_no_exception_witness :
    ((fun _ _ => (Except.error () : Except Unit Unit)) "12345" "ZZ" =
      Except.error ()) ∧
    validate_phone (fun _ _ => (Except.error () : Except Unit Unit))
      (fun _ => true) "12345" "ZZ" = Except.ok false :=
  ⟨rfl,
   (validate_phone_no_exception (fun _ _ => (Except.error () : Except Unit Unit))
      (fun _ => true) "12345" "ZZ").2.1 () rfl⟩

/-! ## Claims about the `generate_questions` stage -/

/-- `renderQuestions` never emits a save effect beyond those already in its
accumulator. -/
theorem hasSave_renderQuestions (gptCall : String → Except String String)
    (sendOk : Bool) (st : SessionState) (click : Button) (prompt : String)
    (data : Candidate) (acc : List Effect) (qs : String)
    (hacc : hasSave acc = false) :
    hasSave (renderQuestions gptCall sendOk st click prompt data acc qs).effects
      = false := by
  have hacc2 : acc.any isSaveEff = false := hacc
  unfold renderQuestions
  split
  · split <;> simp [hasSave, List.any_append, isSaveEff, hacc2]
  · split_ifs <;> simp [hasSave, List.any_append, isSaveEff, hacc2]

/-- Claim C10: the resume path never persists a record — the resume
confirmation handler emits no save effect in any branch; on success
(consent given, valid email) it only stores the record in the in-memory
session and moves the stage to `generate_questions`; and the
`generate_questions` stage block never emits a save effect either, so
`save_candidate_data` is called exclusively by the manual-form path. -/
theorem resume_path_never_persists (st : SessionState) (skills : List String)
    (role email : String) (consent : Bool) (now : String)
    (gptCall : String → Except String String) (sendOk : Bool)
    (click : Button) :
    hasSave (resume_confirm_submit st skills role email consent now).2 = false ∧
    (consent = true → validate_email email = true →
      (resume_confirm_submit st skills role email consent now).1.stage =
        some Stage.generate_questions ∧
      (resume_confirm_submit st skills role email consent now).1.candidate_info =
        some (resumeRecord skills role email now)) ∧
    hasSave (generate_questions_stage gptCall sendOk st click).effects = false := by
  refine ⟨?_, ?_, ?_⟩
  · unfold resume_confirm_submit
    split
    · rfl
    · split
      · rfl
      · rfl
  · intro hc he
    unfold resume_confirm_submit
    simp [hc, he]
  · unfold generate_questions_stage
    split
    · rfl
    · split
      · dsimp only
        split
        · rfl
        · exact hasSave_renderQuestions _ _ _ _ _ _ _ _ rfl
      · exact hasSave_renderQuestions _ _ _ _ _ _ _ _ rfl

/-- Witness for C10: a concrete successful resume confirmation stores the
record in the session, transitions the stage, and emits no save; a concrete
stage-block run emits no save. -/
theorem resume_path_never_persists_witness :
    ((true : Bool) = true) ∧ validate_email "jane@example.com" = true ∧
    (resume_confirm_submit stInfo ["React"] "Developer" "jane@example.com"
        true "t").1.stage = some Stage.generate_questions ∧
    (resume_confirm_submit stInfo ["React"] "Developer" "jane@example.com"
        true "t").1.candidate_info =
      some (resumeRecord ["React"] "Developer" "jane@example.com" "t") ∧
    hasSave (resume_confirm_submit stInfo ["React"] "Developer"
        "jane@example.com" true "t").2 = false ∧
    hasSave (generate_questions_stage (fun _ => Except.ok "QS") true stCached
        Button.idle).effects = false :=
  ⟨rfl, by decide,
   ((resume_path_never_persists stInfo ["React"] "Developer" "jane@example.com"
      true "t" (fun _ => Except.ok "QS") true Button.idle).2.1 rfl (by decide)).1,
   ((resume_path_never_persists stInfo ["React"] "Developer" "jane@example.com"
      true "t" (fun _ => Except.ok "QS") true Button.idle).2.1 rfl (by decide)).2,
   (resume_path_never_persists stInfo ["React"] "Developer" "jane@example.com"
      true "t" (fun _ => Except.ok "QS") true Button.idle).1,
   (resume_path_never_persists stCached ["React"] "Developer" "jane@example.com"
      true "t" (fun _ => Except.ok "QS") true Button.idle).2.2⟩

/-- Claim C3: on first entry to the `generate_questions` stage (no cached
questions) with no button clicked, the generator is invoked exactly once
and its result is cached; on a later render with a cached result and any
click other than Regenerate, the generator is not invoked at all and the
cache is unchanged; a Regenerate click invokes the generator exactly once
more and overwrites the cache with the fresh call result (nothing is
appended to the old text). -/
theorem generator_called_once_and_cached
    (gptCall : String → Except String String) (sendOk : Bool)
    (st : SessionState) (data : Candidate) (click : Button)
    (q fresh qres : String) :
    (st.candidate_info = some data → st.generated_questions = none →
      gptCall (promptOf data) = Except.ok qres → click = Button.idle →
      countGen (generate_questions_stage gptCall sendOk st click).effects = 1 ∧
      (generate_questions_stage gptCall sendOk st click).state.generated_questions
        = some qres) ∧
    (st.candidate_info = some data → st.generated_questions = some q →
      click ≠ Button.regenerate →
      countGen (generate_questions_stage gptCall sendOk st click).effects = 0 ∧
      (generate_questions_stage gptCall sendOk st click).state.generated_questions
        = some q) ∧
    (st.candidate_info = some data → st.generated_questions = some q →
      click = Button.regenerate → gptCall (promptOf data) = Except.ok fresh →
      countGen (generate_questions_stage gptCall sendOk st click).effects = 1 ∧
      (generate_questions_stage gptCall sendOk st click).state.generated_questions
        = some fresh) := by
  refine ⟨?_, ?_, ?_⟩
  · intro hci hgq hcall hclick
    subst hclick
    simp [generate_questions_stage, renderQuestions, hci, hgq, hcall,
      countGen, List.countP_append, List.countP_cons, isGenCallEff]
  · intro hci hgq hne
    cases click with
    | regenerate => exact absurd rfl hne
    | idle =>
      simp [generate_questions_stage, renderQuestions, hci, hgq,
        countGen, List.countP_append, List.countP_cons, isGenCallEff]
    | emailMe =>
      cases sendOk <;>
        simp [generate_questions_stage, renderQuestions, hci, hgq,
          countGen, List.countP_append, List.countP_cons, isGenCallEff]
    | finish =>
      simp [generate_questions_stage, renderQuestions, hci, hgq,
        countGen, List.countP_append, List.countP_cons, isGenCallEff]
  · intro hci hgq hclick hcall
    subst hclick
    simp [generate_questions_stage, renderQuestions, hci, hgq, hcall,
      countGen, List.countP_append, List.countP_cons, isGenCallEff]

/-- Witness for C3 at concrete runs: a first entry caches `"QS"` after one
generator call; a cached render performs zero calls; a Regenerate performs
one call and replaces `"OLD"` by `"FRESH"`. -/
theorem generator_called_once_and_cached_witness :
    (stFresh.candidate_info = some cand1 ∧ stFresh.generated_questions = none ∧
      stCached.generated_questions = some "OLD") ∧
    (countGen (generate_questions_stage (fun _ => Except.ok "QS") true stFresh
        Button.idle).effects = 1 ∧
      (generate_questions_stage (fun _ => Except.ok "QS") true stFresh
        Button.idle).state.generated_questions = some "QS") ∧
    (countGen (generate_questions_stage (fun _ => Except.ok "QS") true stCached
        Button.idle).effects = 0 ∧
      (generate_questions_stage (fun _ => Except.ok "QS") true stCached
        Button.idle).state.generated_questions = some "OLD") ∧
    (countGen (generate_questions_stage (fun _ => Except.ok "FRESH") true
        stCached Button.regenerate).effects = 1 ∧
      (generate_questions_stage (fun _ => Except.ok "FRESH") true stCached
        Button.regenerate).state.generated_questions = some "FRESH") :=
  ⟨⟨rfl, rfl, rfl⟩,
   (generator_called_once_and_cached (fun _ => Except.ok "QS") true stFresh
      cand1 Button.idle "x" "x" "QS").1 rfl rfl rfl rfl,
   (generator_called_once_and_cached (fun _ => Except.ok "QS") true stCached
      cand1 Button.idle "OLD" "x" "x").2.1 rfl rfl (by decide),
   (generator_called_once_and_cached (fun _ => Except.ok "FRESH") true stCached
      cand1 Button.regenerate "OLD" "FRESH" "x").2.2 rfl rfl rfl rfl⟩

/-- Claim C4 (amended): a generator failure on FIRST ENTRY to the
`generate_questions` stage is caught and reported — the run ends normally
(`raised = none`) with an `st.error` message and `st.stop`, the session
state (stage and empty cache) completely unchanged, so the user can retry.
A generator failure on an explicit Regenerate click, however, is NOT
caught by the application code: the exception propagates out of the script
run (`raised = some err`); the session state — including the previously
cached questions and the stage — is still unchanged, so the session
survives and retry remains possible. -/
theorem generator_failure_semantics
    (gptCall : String → Except String String) (sendOk : Bool)
    (st : SessionState) (data : Candidate) (click : Button) (err q : String) :
    (st.candidate_info = some data → st.generated_questions = none →
      gptCall (promptOf data) = Except.error err →
      (generate_questions_stage gptCall sendOk st click).raised = none ∧
      (generate_questions_stage gptCall sendOk st click).state = st ∧
      Effect.errorMsg ("Failed to generate questions: " ++ err) ∈
        (generate_questions_stage gptCall sendOk st click).effects ∧
      Effect.stop ∈ (generate_questions_stage gptCall sendOk st click).effects) ∧
    (st.candidate_info = some data → st.generated_questions = some q →
      gptCall (promptOf data) = Except.error err →
      (generate_questions_stage gptCall sendOk st Button.regenerate).raised =
        some err ∧
      (generate_questions_stage gptCall sendOk st Button.regenerate).state = st) := by
  constructor
  · intro hci hgq hcall
    simp [generate_questions_stage, hci, hgq, hcall]
  · intro hci hgq hcall
    simp [generate_questions_stage, renderQuestions, hci, hgq, hcall]

/-- Witness for C4 (amended) at concrete runs with a failing generator. -/
theorem generator_failure_semantics_witness :
    (stFresh.candidate_info = some cand1 ∧ stFresh.generated_questions = none ∧
      stCached.generated_questions = some "OLD") ∧
    ((generate_questions_stage (fun _ => Except.error "boom") true stFresh
        Button.idle).raised = none ∧
      (generate_questions_stage (fun _ => Except.error "boom") true stFresh
        Button.idle).state = stFresh ∧
      Effect.errorMsg ("Failed to generate questions: " ++ "boom") ∈
        (generate_questions_stage (fun _ => Except.error "boom") true stFresh
          Button.idle).effects ∧
      Effect.stop ∈ (generate_questions_stage (fun _ => Except.error "boom")
        true stFresh Button.idle).effects) ∧
    ((generate_questions_stage (fun _ => Except.error "boom") true stCached
        Button.regenerate).raised = some "boom" ∧
      (generate_questions_stage (fun _ => Except.error "boom") true stCached
        Button.regenerate).state = stCached) :=
  ⟨⟨rfl, rfl, rfl⟩,
   (generator_failure_semantics (fun _ => Except.error "boom") true stFresh
      cand1 Button.idle "boom" "x").1 rfl rfl rfl,
   (generator_failure_semantics (fun _ => Except.error "boom") true stCached
      cand1 Button.regenerate "boom" "OLD").2 rfl rfl rfl⟩

/-- Counterexample to claim C4 as stated: with questions already cached,
clicking Regenerate while the generator fails ends the script run with an
UNCAUGHT exception (`raised = some "network down"`) and zero `st.error`
messages — the failure is neither caught nor reported by the application,
refuting "for every invocation ... the failure is caught and reported to
the user as an error message".  (The old cache does survive untouched.) -/
theorem regenerate_failure_uncaught_counterexample :
    (generate_questions_stage (fun _ => Except.error "network down") true
      stCached Button.regenerate).raised = some "network down" ∧
    countErrors (generate_questions_stage (fun _ => Except.error "network down")
      true stCached Button.regenerate).effects = 0 ∧
    (generate_questions_stage (fun _ => Except.error "network down") true
      stCached Button.regenerate).state.generated_questions = some "OLD" :=
  ⟨rfl, rfl, rfl⟩
